import Mathlib

/-!
Shallow embedding of the two behavior-tree decision nodes of the
IntelligentRoboticsLabs/bt_nodes repository:

* `navigation::NavigateTo` (src/motion/src/motion/navigation/NavigateTo.cpp):
  goal resolution (`on_tick`) and the terminal-outcome lifecycle
  (`on_success` / `on_aborted` / `on_cancelled`).
* `perception::IsInFront` (the unnamed source file): constructor port reads
  and the bearing-gate `tick`.

Conventions: C++ `double` fields are modelled as `ℚ` (the decision logic only
compares and copies them); the external collaborators (tf2 frame lookup,
service readiness, the perception listener, the real `atan2`) are passed in
as explicit data to the embedded functions, so each theorem quantifies over
their answers.
-/

namespace BtNodes

/-- `BT::NodeStatus` of behaviortree_cpp_v3. -/
inductive NodeStatus where
  | IDLE
  | RUNNING
  | SUCCESS
  | FAILURE
deriving DecidableEq, Repr

/-- `geometry_msgs` 3-component vector (also used for `Point`). -/
structure Vector3 where
  x : ℚ
  y : ℚ
  z : ℚ
deriving DecidableEq, Repr

/-- `geometry_msgs::msg::Quaternion`; the ROS 2 message default is
`x = y = z = 0, w = 1` (identity). -/
structure Quaternion where
  x : ℚ
  y : ℚ
  z : ℚ
  w : ℚ
deriving DecidableEq, Repr

/-- Identity quaternion, the ROS 2 default value of the message. -/
def Quaternion.identity : Quaternion := ⟨0, 0, 0, 1⟩

/-- The translation/rotation part of `geometry_msgs::msg::TransformStamped`. -/
structure Transform where
  translation : Vector3
  rotation : Quaternion
deriving DecidableEq, Repr

/-- A default-constructed `TransformStamped`: zero translation, default
(identity) rotation.  This is the value `map_to_goal` keeps when
`lookupTransform` throws and the `catch` block falls through. -/
def Transform.defaultMsg : Transform := ⟨⟨0, 0, 0⟩, Quaternion.identity⟩

/-- `geometry_msgs::msg::Pose`. -/
structure Pose where
  position : Vector3
  orientation : Quaternion
deriving DecidableEq, Repr

/-- `geometry_msgs::msg::PoseStamped` (header reduced to its frame id). -/
structure PoseStamped where
  frame_id : String
  pose : Pose
deriving DecidableEq, Repr

/-- A default-constructed `PoseStamped` (all numeric fields zero except the
quaternion default `w = 1`, empty frame id). -/
def PoseStamped.defaultMsg : PoseStamped :=
  ⟨"", ⟨⟨0, 0, 0⟩, Quaternion.identity⟩⟩

/-- The `nav2_msgs::action::NavigateToPose` goal fields the node writes:
`goal_.pose` and `goal_.behavior_tree`. -/
structure NavigateToPoseGoal where
  pose : PoseStamped
  behavior_tree : String
deriving DecidableEq, Repr

/-- The member state of a `navigation::NavigateTo` node instance that the
embedded functions read or write: the outgoing goal `goal_`, the flags
`will_finish_` and `goal_updated_`, the BT status set via `setStatus`, and a
count of `on_new_goal_received` notifications. -/
structure NavigateToState where
  goal_ : NavigateToPoseGoal
  will_finish_ : Bool
  goal_updated_ : Bool
  status : NodeStatus
  new_goal_notices : Nat
deriving DecidableEq, Repr

/-- The input-port values `on_tick` reads via `getInput`. -/
structure TickInput where
  tf_frame : String
  will_finish : Bool
  is_truncated : Bool
  x : ℚ
  y : ℚ
  distance_tolerance : ℚ
deriving DecidableEq, Repr

/-- The answers of the external collaborators during one `on_tick`:
`lookupTransform = none` models `tf_buffer_.lookupTransform` throwing a
`tf2::TransformException`; `serviceReady` is the result of
`set_truncate_distance_client_->wait_for_service(1s)`. -/
structure ExternalWorld where
  lookupTransform : Option Transform
  serviceReady : Bool
deriving DecidableEq, Repr

/-- Modelled from the spec: `nav_to_pose_truncated_xml` is a template constant
declared outside the given sources (the NavigateTo header).  Its concrete text
is irrelevant to every claim; it is a fixed string. -/
def nav_to_pose_truncated_xml : String := "nav_to_pose_truncated_xml"

/-- Modelled from the spec: `generate_xml_file` is declared outside the given
sources.  The spec calls it "a deterministic template instantiation keyed only
by the tolerance value — same tolerance ⇒ same artifact reference", so it is
modelled as a pure function of the template and the distance tolerance. -/
def generate_xml_file (template : String) (tol : ℚ) : String :=
  template ++ "#" ++ toString tol

/-- `NavigateTo::on_tick`, line for line:
* read `tf_frame`, `will_finish`, `is_truncated`;
* if `tf_frame` is non-empty, look the transform up; on a
  `tf2::TransformException` the `catch` block calls `setStatus(RUNNING)` and
  execution falls through, so the pose is copied from the default-constructed
  `map_to_goal`; on success the pose is the transform verbatim;
* otherwise take `x`/`y` from the ports and the identity orientation;
* fix the goal frame to "map";
* if `wait_for_service(1s)` fails, `setStatus(RUNNING)` and fall through;
* if `is_truncated`, generate the truncated-navigation XML from
  `distance_tolerance` and store it in `goal_.behavior_tree`;
* finally store the pose in `goal_.pose`. -/
def on_tick (inp : TickInput) (ext : ExternalWorld) (s : NavigateToState) :
    NavigateToState :=
  let map_to_goal : Transform :=
    if inp.tf_frame.length > 0 then ext.lookupTransform.getD Transform.defaultMsg
    else Transform.defaultMsg
  let statusAfterLookup : NodeStatus :=
    if inp.tf_frame.length > 0 ∧ ext.lookupTransform = none then NodeStatus.RUNNING
    else s.status
  let goalPose : Pose :=
    if inp.tf_frame.length > 0 then
      { position := ⟨map_to_goal.translation.x, map_to_goal.translation.y,
          PoseStamped.defaultMsg.pose.position.z⟩
        orientation := map_to_goal.rotation }
    else
      { position := ⟨inp.x, inp.y, PoseStamped.defaultMsg.pose.position.z⟩
        orientation := ⟨0, 0, 0, 1⟩ }
  let goal : PoseStamped := { frame_id := "map", pose := goalPose }
  let statusAfterWait : NodeStatus :=
    if ext.serviceReady then statusAfterLookup else NodeStatus.RUNNING
  let bt : String :=
    if inp.is_truncated then
      generate_xml_file nav_to_pose_truncated_xml inp.distance_tolerance
    else s.goal_.behavior_tree
  { s with
    will_finish_ := inp.will_finish
    status := statusAfterWait
    goal_ := { pose := goal, behavior_tree := bt } }

/-- Modelled from the spec: `on_new_goal_received` lives in the
`motion::BtActionNode` base class, outside the given sources.  The spec says
it notifies the action-client collaborator that a new goal is available; it is
modelled as recording one notification and changing nothing else. -/
def on_new_goal_received (s : NavigateToState) : NavigateToState :=
  { s with new_goal_notices := s.new_goal_notices + 1 }

/-- `NavigateTo::on_success`: if `will_finish_`, return SUCCESS; otherwise set
`goal_updated_ = true`, re-run `on_tick`, call `on_new_goal_received`, and
return RUNNING. -/
def on_success (inp : TickInput) (ext : ExternalWorld) (s : NavigateToState) :
    NodeStatus × NavigateToState :=
  if s.will_finish_ then (NodeStatus.SUCCESS, s)
  else
    let s1 := { s with goal_updated_ := true }
    let s2 := on_tick inp ext s1
    (NodeStatus.RUNNING, on_new_goal_received s2)

/-- `NavigateTo::on_aborted`: if `will_finish_`, return FAILURE; otherwise
re-run `on_tick`, call `on_new_goal_received`, and return RUNNING.  Note that
unlike `on_success` it does not touch `goal_updated_`. -/
def on_aborted (inp : TickInput) (ext : ExternalWorld) (s : NavigateToState) :
    NodeStatus × NavigateToState :=
  if s.will_finish_ then (NodeStatus.FAILURE, s)
  else (NodeStatus.RUNNING, on_new_goal_received (on_tick inp ext s))

/-- `NavigateTo::on_cancelled`: if `will_finish_`, return SUCCESS; otherwise
re-run `on_tick`, call `on_new_goal_received`, and return RUNNING. -/
def on_cancelled (inp : TickInput) (ext : ExternalWorld) (s : NavigateToState) :
    NodeStatus × NavigateToState :=
  if s.will_finish_ then (NodeStatus.SUCCESS, s)
  else (NodeStatus.RUNNING, on_new_goal_received (on_tick inp ext s))

/-- The `center3d.position` of one
`perception_system_interfaces::msg::Detection`. -/
structure Detection where
  x : ℚ
  y : ℚ
  z : ℚ
deriving DecidableEq, Repr

/-- The port configuration an `IsInFront` node is constructed with: the string
ports and the numeric ports, each as a total map from port key to value. -/
structure IsInFrontPorts where
  strPort : String → String
  numPort : String → ℚ

/-- The member variables `perception::IsInFront`'s constructor fills from its
ports. -/
structure IsInFrontConfig where
  target_ : String
  confidence_ : ℚ
  what : String
  entity_ : String

/-- The `IsInFront` constructor's port reads: note that the confidence member
is read from the port keyed `"conficende"` (sic), not `"confidence"`. -/
def IsInFront.construct (p : IsInFrontPorts) : IsInFrontConfig :=
  { target_ := p.strPort "target"
    confidence_ := p.numPort "conficende"
    what := p.strPort "what"
    entity_ := p.strPort "entity_to_identify" }

/-- External collaborators of `IsInFront::tick`: the blackboard entry for the
query template (`config().blackboard->get(target_, detection)`), the ranked
detection list returned by
`PerceptionListener::get_by_features(detection, confidence_)`, and the real
function `(y, x) ↦ atan2(y, x) · 180 / π` from `<cmath>`, abstracted as an
arbitrary map to the bearing in degrees. -/
structure PerceptionWorld where
  blackboardDetection : String → Detection
  get_by_features : Detection → ℚ → List Detection
  atan2Deg : ℚ → ℚ → ℚ

/-- The observable result of one `IsInFront::tick`: the returned status, the
list of values written to the `direction` output port in order, and whether
`publishTF` was called. -/
structure TickResult where
  status : NodeStatus
  directionWrites : List Int
  publishedTF : Bool
deriving DecidableEq, Repr

/-- `IsInFront::tick`:
* fetch the query template from the blackboard under `target_`;
* `detections = get_by_features(detection, confidence_)`;
* if empty: `setOutput("direction", -1)`, return FAILURE;
* else `yaw = atan2(head.y, head.x) * 180 / π`;
* if `|yaw| > 5.0`: direction `1` if `yaw > 0` else `-1`, return FAILURE;
* else publish the TF, direction `0`, return SUCCESS. -/
def IsInFront.tick (w : PerceptionWorld) (c : IsInFrontConfig) : TickResult :=
  let detection := w.blackboardDetection c.target_
  let detections := w.get_by_features detection c.confidence_
  match detections with
  | [] => ⟨NodeStatus.FAILURE, [-1], false⟩
  | d :: _ =>
    let yaw := w.atan2Deg d.y d.x
    if 5 < |yaw| then
      if 0 < yaw then ⟨NodeStatus.FAILURE, [1], false⟩
      else ⟨NodeStatus.FAILURE, [-1], false⟩
    else ⟨NodeStatus.SUCCESS, [0], true⟩

/-! ### Concrete values used by NavigateTo witnesses and counterexamples -/

/-- A node state carrying a previously resolved goal at position `(5, 7)`,
with `will_finish_ = false`, no pending flags and no truncation reference. -/
def prevGoalState : NavigateToState :=
  { goal_ := { pose := { frame_id := "map", pose := ⟨⟨5, 7, 0⟩, Quaternion.identity⟩ }
               behavior_tree := "" }
    will_finish_ := false
    goal_updated_ := false
    status := NodeStatus.IDLE
    new_goal_notices := 0 }

/-- Tick input asking for the frame `"person"` (non-empty, so coordinates are
ignored). -/
def frameInput : TickInput :=
  { tf_frame := "person", will_finish := false, is_truncated := false,
    x := 9, y := 9, distance_tolerance := 0 }

/-- External world in which the frame lookup throws (`none`) and the
truncation service is ready. -/
def lookupFailWorld : ExternalWorld :=
  { lookupTransform := none, serviceReady := true }

/-- Tick input with empty `tf_frame` and coordinates `(1, 2)`. -/
def coordInput : TickInput :=
  { tf_frame := "", will_finish := false, is_truncated := false,
    x := 1, y := 2, distance_tolerance := 0 }

/-- External world in which the lookup would succeed but the truncation
service is not ready within the bounded wait. -/
def notReadyWorld : ExternalWorld :=
  { lookupTransform := some Transform.defaultMsg, serviceReady := false }

/-- External world in which everything is available. -/
def readyWorld : ExternalWorld :=
  { lookupTransform := some ⟨⟨3, 4, 0⟩, ⟨0, 0, 1, 0⟩⟩, serviceReady := true }

/-- The spec's scenario context: empty frame, `x = 2`, `y = 3`, not
truncated. -/
def scenarioInput : TickInput :=
  { tf_frame := "", will_finish := true, is_truncated := false,
    x := 2, y := 3, distance_tolerance := 1/2 }

/-- A truncated context with distance tolerance `1/2`, using coordinates. -/
def truncInputA : TickInput :=
  { tf_frame := "", will_finish := false, is_truncated := true,
    x := 1, y := 2, distance_tolerance := 1/2 }

/-- Another truncated context with the same tolerance `1/2` but a different
frame, flags and coordinates. -/
def truncInputB : TickInput :=
  { tf_frame := "person", will_finish := true, is_truncated := true,
    x := 8, y := 9, distance_tolerance := 1/2 }

/-! ### Claims about the goal resolver and lifecycle (`NavigateTo`) -/

/-- Claim C1 (code bug): when `tf_frame` is non-empty and the lookup throws,
`on_tick` does set RUNNING, but the `catch` block falls through, so the pose
copied from the default-constructed transform (the map origin with identity
orientation) overwrites the previously stored goal — the previous `(5, 7)`
goal is not left untouched.  This theorem evaluates the code at the failing
input. -/
theorem lookup_failure_overwrites_previous_goal :
    (on_tick frameInput lookupFailWorld prevGoalState).status = NodeStatus.RUNNING
    ∧ (on_tick frameInput lookupFailWorld prevGoalState).goal_.pose.pose.position
      = ⟨0, 0, 0⟩
    ∧ prevGoalState.goal_.pose.pose.position = ⟨5, 7, 0⟩ := by
  decide

/-- Claim C7 (code bug): when the truncation service is not ready within the
bounded wait, the tick is reported RUNNING (never FAILURE), but the
`wait_for_service` check also falls through, so `goal_.pose` is still
advanced to the freshly resolved `(1, 2)` in the same cycle, replacing the
previous `(5, 7)` goal.  This theorem evaluates the code at the failing
input. -/
theorem service_not_ready_still_advances_goal :
    (on_tick coordInput notReadyWorld prevGoalState).status = NodeStatus.RUNNING
    ∧ (on_tick coordInput notReadyWorld prevGoalState).goal_.pose.pose.position
      = ⟨1, 2, 0⟩
    ∧ prevGoalState.goal_.pose.pose.position = ⟨5, 7, 0⟩ := by
  decide

/-- Claim C8: for every context with empty `tf_frame`, the resolved goal has
position exactly `(x, y)` from the context and exactly the identity
orientation, and the path introduces no failure (the status is either
untouched or RUNNING from the unrelated readiness gate, never FAILURE);
moreover, when `is_truncated` is false, no truncation-policy reference is
attached (`goal_.behavior_tree` is left as it was). -/
theorem empty_frame_resolution (inp : TickInput) (ext : ExternalWorld)
    (s : NavigateToState) (hframe : inp.tf_frame = "") :
    (on_tick inp ext s).goal_.pose.pose.position.x = inp.x
    ∧ (on_tick inp ext s).goal_.pose.pose.position.y = inp.y
    ∧ (on_tick inp ext s).goal_.pose.pose.orientation = Quaternion.identity
    ∧ ((on_tick inp ext s).status = s.status
        ∨ (on_tick inp ext s).status = NodeStatus.RUNNING)
    ∧ (inp.is_truncated = false →
        (on_tick inp ext s).goal_.behavior_tree = s.goal_.behavior_tree) := by
  by_cases hsr : ext.serviceReady
  · by_cases htr : inp.is_truncated
    · simp [on_tick, hframe, htr, hsr, Quaternion.identity]
    · simp [on_tick, hframe, htr, hsr, Quaternion.identity]
  · by_cases htr : inp.is_truncated
    · simp [on_tick, hframe, htr, hsr, Quaternion.identity]
    · simp [on_tick, hframe, htr, hsr, Quaternion.identity]

/-- Witness for C8 at the spec's scenario context
`{tf_frame := "", x := 2, y := 3, is_truncated := false}`. -/
theorem empty_frame_resolution_witness :
    (on_tick scenarioInput readyWorld prevGoalState).goal_.pose.pose.position.x
      = scenarioInput.x
    ∧ (on_tick scenarioInput readyWorld prevGoalState).goal_.pose.pose.position.y
      = scenarioInput.y
    ∧ (on_tick scenarioInput readyWorld prevGoalState).goal_.pose.pose.orientation
      = Quaternion.identity
    ∧ ((on_tick scenarioInput readyWorld prevGoalState).status = prevGoalState.status
        ∨ (on_tick scenarioInput readyWorld prevGoalState).status = NodeStatus.RUNNING)
    ∧ (on_tick scenarioInput readyWorld prevGoalState).goal_.behavior_tree
      = prevGoalState.goal_.behavior_tree := by
  have h := empty_frame_resolution scenarioInput readyWorld prevGoalState rfl
  exact ⟨h.1, h.2.1, h.2.2.1, h.2.2.2.1, h.2.2.2.2 rfl⟩

/-- The goal written by `on_tick` depends on the previous state only through
`goal_.behavior_tree`. -/
theorem on_tick_goal_congr (inp : TickInput) (ext : ExternalWorld)
    {s t : NavigateToState} (h : s.goal_.behavior_tree = t.goal_.behavior_tree) :
    (on_tick inp ext s).goal_ = (on_tick inp ext t).goal_ := by
  simp [on_tick, h]

/-- Claim C2: with the finish flag set, the three terminal outcomes map to
Succeeded→SUCCESS, Aborted→FAILURE, Cancelled→SUCCESS; with the finish flag
clear, each of the three returns RUNNING together with a goal re-resolved by
`on_tick`. -/
theorem goal_lifecycle_verdicts (inp : TickInput) (ext : ExternalWorld)
    (s : NavigateToState) :
    ((on_success inp ext s).1
      = if s.will_finish_ then NodeStatus.SUCCESS else NodeStatus.RUNNING)
    ∧ ((on_aborted inp ext s).1
      = if s.will_finish_ then NodeStatus.FAILURE else NodeStatus.RUNNING)
    ∧ ((on_cancelled inp ext s).1
      = if s.will_finish_ then NodeStatus.SUCCESS else NodeStatus.RUNNING)
    ∧ (s.will_finish_ = false →
        (on_success inp ext s).2.goal_ = (on_tick inp ext s).goal_
        ∧ (on_aborted inp ext s).2.goal_ = (on_tick inp ext s).goal_
        ∧ (on_cancelled inp ext s).2.goal_ = (on_tick inp ext s).goal_) := by
  by_cases hw : s.will_finish_
  · simp [on_success, on_aborted, on_cancelled, hw]
  · refine ⟨by simp [on_success, hw], by simp [on_aborted, hw],
      by simp [on_cancelled, hw], fun _ => ⟨?_, ?_, ?_⟩⟩
    · simp only [on_success, hw, if_neg Bool.false_ne_true, on_new_goal_received]
      exact on_tick_goal_congr inp ext rfl
    · simp [on_aborted, hw, on_new_goal_received]
    · simp [on_cancelled, hw, on_new_goal_received]

/-- Witness for C2 at a concrete state with the finish flag clear. -/
theorem goal_lifecycle_verdicts_witness :
    (on_success coordInput readyWorld prevGoalState).1 = NodeStatus.RUNNING
    ∧ (on_aborted coordInput readyWorld prevGoalState).1 = NodeStatus.RUNNING
    ∧ (on_aborted coordInput readyWorld prevGoalState).2.goal_
      = (on_tick coordInput readyWorld prevGoalState).goal_ := by
  have h := goal_lifecycle_verdicts coordInput readyWorld prevGoalState
  have hw : prevGoalState.will_finish_ = false := rfl
  exact ⟨by simpa [hw] using h.1, by simpa [hw] using h.2.1, (h.2.2.2 hw).2.1⟩

/-- Counterexample to claim C3: at a concrete input with the finish flag
clear, the continuation after Aborted (and after Cancelled) is not
step-for-step identical to the continuation after Succeeded — only
`on_success` marks the internal `goal_updated_` flag; `on_aborted` and
`on_cancelled` leave it false. -/
theorem aborted_skips_goal_updated_flag :
    (on_aborted coordInput readyWorld prevGoalState).2.goal_updated_ = false
    ∧ (on_cancelled coordInput readyWorld prevGoalState).2.goal_updated_ = false
    ∧ (on_success coordInput readyWorld prevGoalState).2.goal_updated_ = true
    ∧ prevGoalState.will_finish_ = false := by
  decide

/-- Claim C3 as amended: with the finish flag clear, all three terminal
outcomes re-run the resolver (`on_tick`), notify the collaborator
(`on_new_goal_received`) and report RUNNING, but only the Succeeded
continuation marks the internal `goal_updated_` flag — Aborted and Cancelled
leave the flag unchanged, which is the single step in which their
continuation differs from Succeeded's. -/
theorem continuation_paths (inp : TickInput) (ext : ExternalWorld)
    (s : NavigateToState) (h : s.will_finish_ = false) :
    on_aborted inp ext s
      = (NodeStatus.RUNNING, on_new_goal_received (on_tick inp ext s))
    ∧ on_cancelled inp ext s
      = (NodeStatus.RUNNING, on_new_goal_received (on_tick inp ext s))
    ∧ on_success inp ext s
      = (NodeStatus.RUNNING,
         on_new_goal_received (on_tick inp ext { s with goal_updated_ := true }))
    ∧ (on_aborted inp ext s).2.goal_updated_ = s.goal_updated_
    ∧ (on_cancelled inp ext s).2.goal_updated_ = s.goal_updated_
    ∧ (on_success inp ext s).2.goal_updated_ = true := by
  refine ⟨by simp [on_aborted, h], by simp [on_cancelled, h],
    by simp [on_success, h], ?_, ?_, ?_⟩
  · simp [on_aborted, h, on_new_goal_received, on_tick]
  · simp [on_cancelled, h, on_new_goal_received, on_tick]
  · simp [on_success, h, on_new_goal_received, on_tick]

/-- Witness for the amended C3 at a concrete state with the finish flag
clear. -/
theorem continuation_paths_witness :
    on_aborted coordInput readyWorld prevGoalState
      = (NodeStatus.RUNNING,
         on_new_goal_received (on_tick coordInput readyWorld prevGoalState))
    ∧ (on_success coordInput readyWorld prevGoalState).2.goal_updated_ = true :=
  ⟨(continuation_paths coordInput readyWorld prevGoalState rfl).1,
   (continuation_paths coordInput readyWorld prevGoalState rfl).2.2.2.2.2⟩

/-- Claim C9: resolving is deterministic and idempotent — running `on_tick`
again with the same context and the same external answers on its own result
changes nothing, and for truncated contexts the attached artifact reference
depends only on the distance tolerance (same tolerance, same reference, for
any other context, world and state). -/
theorem resolve_idempotent (inp i2 : TickInput) (ext e2 : ExternalWorld)
    (s s2 : NavigateToState) :
    on_tick inp ext (on_tick inp ext s) = on_tick inp ext s
    ∧ (inp.is_truncated = true → i2.is_truncated = true →
        inp.distance_tolerance = i2.distance_tolerance →
        (on_tick inp ext s).goal_.behavior_tree
          = (on_tick i2 e2 s2).goal_.behavior_tree) := by
  constructor
  · by_cases hsr : ext.serviceReady
    · by_cases hfr : inp.tf_frame.length > 0 ∧ ext.lookupTransform = none
      · by_cases htr : inp.is_truncated <;> simp [on_tick, hsr, hfr, htr]
      · by_cases htr : inp.is_truncated <;> simp [on_tick, hsr, hfr, htr]
    · by_cases htr : inp.is_truncated <;> simp [on_tick, hsr, htr]
  · intro h1 h2 htol
    simp [on_tick, h1, h2, htol]

/-- Witness for C9: two truncated contexts sharing the tolerance `1/2` but
differing in everything else produce the same artifact reference, and the
idempotence equation holds at a concrete input. -/
theorem resolve_idempotent_witness :
    on_tick truncInputA readyWorld (on_tick truncInputA readyWorld prevGoalState)
      = on_tick truncInputA readyWorld prevGoalState
    ∧ (on_tick truncInputA readyWorld prevGoalState).goal_.behavior_tree
      = (on_tick truncInputB notReadyWorld prevGoalState).goal_.behavior_tree :=
  ⟨(resolve_idempotent truncInputA truncInputB readyWorld notReadyWorld
      prevGoalState prevGoalState).1,
   (resolve_idempotent truncInputA truncInputB readyWorld notReadyWorld
      prevGoalState prevGoalState).2 rfl rfl rfl⟩

/-! ### Concrete values used by witnesses -/

/-- A perception world whose query always comes back empty. -/
def emptyWorld : PerceptionWorld :=
  { blackboardDetection := fun _ => ⟨1, 0, 0⟩
    get_by_features := fun _ _ => []
    atan2Deg := fun _ _ => 0 }

/-- A perception world that returns one fixed detection and reads the bearing
(in degrees) directly off the detection's `y` coordinate. -/
def oneDetWorld (b : ℚ) : PerceptionWorld :=
  { blackboardDetection := fun _ => ⟨1, 0, 0⟩
    get_by_features := fun _ _ => [⟨1, b, 0⟩]
    atan2Deg := fun y _ => y }

/-- A fixed node configuration for witnesses. -/
def cfg0 : IsInFrontConfig :=
  { target_ := "detected_person", confidence_ := 1/2, what := "person",
    entity_ := "person_to_follow" }

/-- Port map supplying `9` under the key `"confidence"`. -/
def portsA : IsInFrontPorts :=
  { strPort := fun _ => "", numPort := fun k => if k = "confidence" then 9 else 0 }

/-- Port map supplying `0` everywhere, in particular under `"confidence"`. -/
def portsB : IsInFrontPorts :=
  { strPort := fun _ => "", numPort := fun _ => 0 }

/-! ### Claims about the bearing gate (`IsInFront`) -/

/-- Claim C6: for every confidence threshold (and any other configuration),
when the detection query returns the empty list, the tick fails and writes
direction `-1`. -/
theorem is_in_front_empty_detections (w : PerceptionWorld) (c : IsInFrontConfig)
    (h : w.get_by_features (w.blackboardDetection c.target_) c.confidence_ = []) :
    IsInFront.tick w c = ⟨NodeStatus.FAILURE, [-1], false⟩ := by
  simp [IsInFront.tick, h]

/-- Witness for C6 at a concrete world and configuration. -/
theorem is_in_front_empty_detections_witness :
    IsInFront.tick emptyWorld cfg0 = ⟨NodeStatus.FAILURE, [-1], false⟩ :=
  is_in_front_empty_detections emptyWorld cfg0 rfl

/-- Claim C5: for every non-empty detection list, with bearing
`b = atan2Deg (head.y) (head.x)` (the degrees value of `atan2(y, x)`): if
`|b| > 5` the tick fails with direction `1` when `b > 0` and `-1` when
`b < 0`; if `|b| ≤ 5` (exactly `5` included) the tick succeeds with direction
`0` and publishes the TF. -/
theorem is_in_front_bearing_cases (w : PerceptionWorld) (c : IsInFrontConfig)
    (d : Detection) (rest : List Detection)
    (h : w.get_by_features (w.blackboardDetection c.target_) c.confidence_ = d :: rest) :
    (5 < |w.atan2Deg d.y d.x| → 0 < w.atan2Deg d.y d.x →
      IsInFront.tick w c = ⟨NodeStatus.FAILURE, [1], false⟩)
    ∧ (5 < |w.atan2Deg d.y d.x| → w.atan2Deg d.y d.x < 0 →
      IsInFront.tick w c = ⟨NodeStatus.FAILURE, [-1], false⟩)
    ∧ (|w.atan2Deg d.y d.x| ≤ 5 →
      IsInFront.tick w c = ⟨NodeStatus.SUCCESS, [0], true⟩) := by
  refine ⟨fun habs hpos => ?_, fun habs hneg => ?_, fun hle => ?_⟩
  · simp [IsInFront.tick, h, habs, hpos]
  · simp [IsInFront.tick, h, habs, not_lt.mpr hneg.le, hneg.ne]
  · simp [IsInFront.tick, h, not_lt.mpr hle]

/-- Witness for C5: a bearing of `10` degrees fails with direction `1`, a
bearing of exactly `5` degrees passes with direction `0`. -/
theorem is_in_front_bearing_cases_witness :
    IsInFront.tick (oneDetWorld 10) cfg0 = ⟨NodeStatus.FAILURE, [1], false⟩
    ∧ IsInFront.tick (oneDetWorld 5) cfg0 = ⟨NodeStatus.SUCCESS, [0], true⟩ :=
  ⟨(is_in_front_bearing_cases (oneDetWorld 10) cfg0 ⟨1, 10, 0⟩ [] rfl).1
      (by norm_num [oneDetWorld]) (by norm_num [oneDetWorld]),
   (is_in_front_bearing_cases (oneDetWorld 5) cfg0 ⟨1, 5, 0⟩ [] rfl).2.2
      (by norm_num [oneDetWorld])⟩

/-- Claim C4: the confidence member is read from the port keyed
`"conficende"`, so two port configurations that differ only in the value
supplied under the key `"confidence"` construct nodes whose ticks agree
exactly (same status, same direction writes, same publication). -/
theorem is_in_front_confidence_key_ignored (w : PerceptionWorld)
    (p q : IsInFrontPorts) (hs : p.strPort = q.strPort)
    (hn : ∀ k, k ≠ "confidence" → p.numPort k = q.numPort k) :
    IsInFront.tick w (IsInFront.construct p) = IsInFront.tick w (IsInFront.construct q) := by
  have hc : IsInFront.construct p = IsInFront.construct q := by
    simp [IsInFront.construct, hs, hn "conficende" (by decide)]
  rw [hc]

/-- Witness for C4: `portsA` and `portsB` differ (only) under the key
`"confidence"`, and the resulting ticks agree. -/
theorem is_in_front_confidence_key_ignored_witness :
    IsInFront.tick (oneDetWorld 10) (IsInFront.construct portsA)
      = IsInFront.tick (oneDetWorld 10) (IsInFront.construct portsB) :=
  is_in_front_confidence_key_ignored (oneDetWorld 10) portsA portsB rfl
    (fun k hk => by simp only [portsA, portsB]; exact if_neg hk)

/-- Claim C10: every tick of the bearing gate writes the `direction` output
exactly once, with a value in `{-1, 0, 1}` (the write list is `[-1]`, `[0]`
or `[1]` on every branch, the empty-detection branch included), and the tick
returns SUCCESS exactly when the written direction is `0`. -/
theorem is_in_front_direction_invariant (w : PerceptionWorld) (c : IsInFrontConfig) :
    ((IsInFront.tick w c).directionWrites = [-1]
      ∨ (IsInFront.tick w c).directionWrites = [0]
      ∨ (IsInFront.tick w c).directionWrites = [1])
    ∧ ((IsInFront.tick w c).status = NodeStatus.SUCCESS
      ↔ (IsInFront.tick w c).directionWrites = [0]) := by
  rcases h : w.get_by_features (w.blackboardDetection c.target_) c.confidence_
    with _ | ⟨d, rest⟩
  · simp [IsInFront.tick, h]
  · by_cases habs : 5 < |w.atan2Deg d.y d.x|
    · by_cases hpos : 0 < w.atan2Deg d.y d.x
      · simp [IsInFront.tick, h, habs, hpos]
      · simp [IsInFront.tick, h, habs, hpos]
    · simp [IsInFront.tick, h, habs]

/-- Witness for C10 at a concrete world and configuration (the iff in the
statement is exercised at the empty-detection branch). -/
theorem is_in_front_direction_invariant_witness :
    ((IsInFront.tick emptyWorld cfg0).directionWrites = [-1]
      ∨ (IsInFront.tick emptyWorld cfg0).directionWrites = [0]
      ∨ (IsInFront.tick emptyWorld cfg0).directionWrites = [1])
    ∧ ((IsInFront.tick emptyWorld cfg0).status = NodeStatus.SUCCESS
      ↔ (IsInFront.tick emptyWorld cfg0).directionWrites = [0]) :=
  is_in_front_direction_invariant emptyWorld cfg0

end BtNodes
